import Mathlib

/-!
Verification of the `emscripten-webxr` header (`src/webxr.h`) against its
natural-language specification.  The header is a pure C-ABI declaration
surface: enumerations, plain-data record layouts, callback typedefs and
`extern` control-function declarations.  We embed that surface shallowly:
each enumeration becomes a Lean inductive with its declared integer value,
each struct becomes an explicit field-layout list over a small C-type
syntax, and each typedef / extern declaration becomes a `CFunDecl` value
recording its name, return type and parameter list exactly as written in
the header.  Behavioural clauses whose implementing glue is not part of
this repository (the session lifecycle and the per-frame view count) are
modelled from the specification text, as marked by their doc comments.
-/

namespace WebXR

/-! ## Enumerations (src/webxr.h lines 13-54) -/

/-- `enum WebXRError` members, from src/webxr.h. -/
inductive WebXRError where
  | apiUnsupported
  | glIncapable
  | sessionUnsupported
deriving DecidableEq, Repr

/-- Declared integer value of each `WebXRError` member. -/
def WebXRError.val : WebXRError → Int
  | .apiUnsupported => -2
  | .glIncapable => -3
  | .sessionUnsupported => -4

/-- `enum WebXRHandedness` members, from src/webxr.h. -/
inductive WebXRHandedness where
  | none
  | left
  | right
deriving DecidableEq, Repr

/-- Declared integer value of each `WebXRHandedness` member. -/
def WebXRHandedness.val : WebXRHandedness → Int
  | .none => -1
  | .left => 0
  | .right => 1

/-- `enum WebXRTargetRayMode` members, from src/webxr.h. -/
inductive WebXRTargetRayMode where
  | gaze
  | trackedPointer
  | screen
deriving DecidableEq, Repr

/-- Declared integer value of each `WebXRTargetRayMode` member. -/
def WebXRTargetRayMode.val : WebXRTargetRayMode → Int
  | .gaze => 0
  | .trackedPointer => 1
  | .screen => 2

/-- `enum WebXRSessionMode` members, from src/webxr.h. -/
inductive WebXRSessionMode where
  | inlineMode
  | immersiveVR
  | immersiveAR
deriving DecidableEq, Repr

/-- Declared integer value of each `WebXRSessionMode` member. -/
def WebXRSessionMode.val : WebXRSessionMode → Int
  | .inlineMode => 0
  | .immersiveVR => 1
  | .immersiveAR => 2

/-- `enum WebXRSessionFeatures` members, from src/webxr.h. -/
inductive WebXRSessionFeatures where
  | local
  | localFloor
  | boundedFloor
  | unbounded
  | hitTest
deriving DecidableEq, Repr

/-- Declared integer value of each `WebXRSessionFeatures` member. -/
def WebXRSessionFeatures.val : WebXRSessionFeatures → Int
  | .local => 0
  | .localFloor => 1
  | .boundedFloor => 2
  | .unbounded => 3
  | .hitTest => 4

/-- `enum WebXRInputPoseMode` members, from src/webxr.h. -/
inductive WebXRInputPoseMode where
  | grip
  | targetRay
deriving DecidableEq, Repr

/-- Declared integer value of each `WebXRInputPoseMode` member. -/
def WebXRInputPoseMode.val : WebXRInputPoseMode → Int
  | .grip => 0
  | .targetRay => 1

/-! ## C type syntax and declaration model -/

/-- A small syntax of the C types occurring in the header.  `enumT`,
`structRef` and `typedefRef` carry the referenced declaration's name;
callback function-pointer types are always referred to through their
typedef name, as the header itself does. -/
inductive CType where
  | void
  | intT
  | floatT
  | ptr (pointee : CType)
  | enumT (name : String)
  | array (elem : CType) (n : Nat)
  | structRef (name : String)
  | typedefRef (name : String)
deriving DecidableEq, Repr

/-- A named struct field. -/
structure CField where
  fieldName : String
  type : CType
deriving DecidableEq, Repr

/-- A function parameter: name, type, and (C++ only) default-argument
value, recorded as the integer value of the defaulting enum member. -/
structure CParam where
  paramName : String
  type : CType
  defaultVal : Option Int := Option.none
deriving DecidableEq, Repr

/-- A function declaration or function-pointer typedef: name, return
type and parameter list, in declaration order. -/
structure CFunDecl where
  declName : String
  ret : CType
  params : List CParam
deriving DecidableEq, Repr

/-- Byte size of a type on the header's target (wasm32 / any ILP32-like
platform with 4-byte `int`, `float`, enum and pointer).  Struct sizes are
looked up through `resolve`, which maps a struct name to its size. -/
def CType.byteSize (resolve : String → Nat) : CType → Nat
  | .void => 0
  | .intT => 4
  | .floatT => 4
  | .ptr _ => 4
  | .enumT _ => 4
  | .array elem n => n * elem.byteSize resolve
  | .structRef name => resolve name
  | .typedefRef _ => 4

/-- Byte size of a struct layout: the sum of its field sizes.  All member
types in this header are 4-byte aligned scalars (or structs thereof), so
no padding is ever inserted. -/
def layoutByteSize (resolve : String → Nat) (fields : List CField) : Nat :=
  (fields.map (fun f => f.type.byteSize resolve)).sum

/-- Number of `float` scalars a type flattens to (arrays included);
structs are counted through `resolve`. -/
def CType.floatCount (resolve : String → Nat) : CType → Nat
  | .floatT => 1
  | .array elem n => n * elem.floatCount resolve
  | .structRef name => resolve name
  | _ => 0

/-- Total number of `float` scalars in a struct layout. -/
def layoutFloatCount (resolve : String → Nat) (fields : List CField) : Nat :=
  (fields.map (fun f => f.type.floatCount resolve)).sum

/-! ## Struct layouts (src/webxr.h lines 56-77) -/

/-- `struct WebXRRigidTransform`, from src/webxr.h: fields in declaration
order. -/
def WebXRRigidTransform_layout : List CField :=
  [⟨"matrix", .array .floatT 16⟩,
   ⟨"position", .array .floatT 3⟩,
   ⟨"orientation", .array .floatT 4⟩]

/-- `struct WebXRView`, from src/webxr.h: fields in declaration order. -/
def WebXRView_layout : List CField :=
  [⟨"viewPose", .structRef "WebXRRigidTransform"⟩,
   ⟨"projectionMatrix", .array .floatT 16⟩,
   ⟨"viewport", .array .intT 4⟩]

/-- `struct WebXRInputSource`, from src/webxr.h: fields in declaration
order. -/
def WebXRInputSource_layout : List CField :=
  [⟨"id", .intT⟩,
   ⟨"handedness", .enumT "WebXRHandedness"⟩,
   ⟨"targetRayMode", .enumT "WebXRTargetRayMode"⟩]

/-- Struct-size environment: no struct in this header contains a struct
other than `WebXRRigidTransform`, which itself contains none. -/
def structSizeEnv : String → Nat := fun name =>
  if name = "WebXRRigidTransform" then
    layoutByteSize (fun _ => 0) WebXRRigidTransform_layout
  else 0

/-- Struct float-count environment, analogous to `structSizeEnv`. -/
def structFloatEnv : String → Nat := fun name =>
  if name = "WebXRRigidTransform" then
    layoutFloatCount (fun _ => 0) WebXRRigidTransform_layout
  else 0

/-! ## Callback typedefs (src/webxr.h lines 79-112 and 178-183) -/

/-- `webxr_error_callback_func`, from src/webxr.h line 85. -/
def webxr_error_callback_func : CFunDecl :=
  ⟨"webxr_error_callback_func", .void,
   [⟨"userData", .ptr .void, Option.none⟩,
    ⟨"error", .intT, Option.none⟩]⟩

/-- `webxr_frame_callback_func`, from src/webxr.h line 96. -/
def webxr_frame_callback_func : CFunDecl :=
  ⟨"webxr_frame_callback_func", .void,
   [⟨"userData", .ptr .void, Option.none⟩,
    ⟨"framebuffer_id", .intT, Option.none⟩,
    ⟨"time", .intT, Option.none⟩,
    ⟨"headPose", .ptr (.structRef "WebXRRigidTransform"), Option.none⟩,
    ⟨"views", .array (.structRef "WebXRView") 2, Option.none⟩,
    ⟨"viewCount", .intT, Option.none⟩]⟩

/-- `webxr_session_callback_func`, from src/webxr.h line 104. -/
def webxr_session_callback_func : CFunDecl :=
  ⟨"webxr_session_callback_func", .void,
   [⟨"userData", .ptr .void, Option.none⟩,
    ⟨"mode", .intT, Option.none⟩]⟩

/-- `webxr_session_supported_callback_func`, from src/webxr.h line 112. -/
def webxr_session_supported_callback_func : CFunDecl :=
  ⟨"webxr_session_supported_callback_func", .void,
   [⟨"mode", .intT, Option.none⟩,
    ⟨"supported", .intT, Option.none⟩]⟩

/-- `webxr_input_callback_func`, from src/webxr.h line 183. -/
def webxr_input_callback_func : CFunDecl :=
  ⟨"webxr_input_callback_func", .void,
   [⟨"inputSource", .ptr (.structRef "WebXRInputSource"), Option.none⟩,
    ⟨"userData", .ptr .void, Option.none⟩]⟩

/-- All five callback function-pointer typedefs the header declares, in
declaration order. -/
def callbackTypedefs : List CFunDecl :=
  [webxr_error_callback_func,
   webxr_frame_callback_func,
   webxr_session_callback_func,
   webxr_session_supported_callback_func,
   webxr_input_callback_func]

/-! ## Extern control-function declarations (src/webxr.h lines 115-213) -/

/-- `webxr_init`, from src/webxr.h lines 124-129. -/
def webxr_init : CFunDecl :=
  ⟨"webxr_init", .void,
   [⟨"frameCallback", .typedefRef "webxr_frame_callback_func", Option.none⟩,
    ⟨"sessionStartCallback", .typedefRef "webxr_session_callback_func", Option.none⟩,
    ⟨"sessionEndCallback", .typedefRef "webxr_session_callback_func", Option.none⟩,
    ⟨"errorCallback", .typedefRef "webxr_error_callback_func", Option.none⟩,
    ⟨"userData", .ptr .void, Option.none⟩]⟩

/-- `webxr_set_session_blur_callback`, from src/webxr.h lines 131-132. -/
def webxr_set_session_blur_callback : CFunDecl :=
  ⟨"webxr_set_session_blur_callback", .void,
   [⟨"sessionBlurCallback", .typedefRef "webxr_session_callback_func", Option.none⟩,
    ⟨"userData", .ptr .void, Option.none⟩]⟩

/-- `webxr_set_session_focus_callback`, from src/webxr.h lines 133-134. -/
def webxr_set_session_focus_callback : CFunDecl :=
  ⟨"webxr_set_session_focus_callback", .void,
   [⟨"sessionFocusCallback", .typedefRef "webxr_session_callback_func", Option.none⟩,
    ⟨"userData", .ptr .void, Option.none⟩]⟩

/-- `webxr_is_session_supported`, from src/webxr.h lines 144-145. -/
def webxr_is_session_supported : CFunDecl :=
  ⟨"webxr_is_session_supported", .void,
   [⟨"mode", .enumT "WebXRSessionMode", Option.none⟩,
    ⟨"supportedCallback", .typedefRef "webxr_session_supported_callback_func", Option.none⟩]⟩

/-- `webxr_request_session`, from src/webxr.h lines 155-157. -/
def webxr_request_session : CFunDecl :=
  ⟨"webxr_request_session", .void,
   [⟨"mode", .enumT "WebXRSessionMode", Option.none⟩,
    ⟨"requiredFeatures", .enumT "WebXRSessionFeatures", Option.none⟩,
    ⟨"optionalFeatures", .enumT "WebXRSessionFeatures", Option.none⟩]⟩

/-- `webxr_request_exit`, from src/webxr.h line 162. -/
def webxr_request_exit : CFunDecl :=
  ⟨"webxr_request_exit", .void, []⟩

/-- `webxr_set_projection_params`, from src/webxr.h line 170. -/
def webxr_set_projection_params : CFunDecl :=
  ⟨"webxr_set_projection_params", .void,
   [⟨"near", .floatT, Option.none⟩,
    ⟨"far", .floatT, Option.none⟩]⟩

/-- `webxr_set_select_callback`, from src/webxr.h lines 189-190. -/
def webxr_set_select_callback : CFunDecl :=
  ⟨"webxr_set_select_callback", .void,
   [⟨"callback", .typedefRef "webxr_input_callback_func", Option.none⟩,
    ⟨"userData", .ptr .void, Option.none⟩]⟩

/-- `webxr_set_select_start_callback`, from src/webxr.h lines 191-192. -/
def webxr_set_select_start_callback : CFunDecl :=
  ⟨"webxr_set_select_start_callback", .void,
   [⟨"callback", .typedefRef "webxr_input_callback_func", Option.none⟩,
    ⟨"userData", .ptr .void, Option.none⟩]⟩

/-- `webxr_set_select_end_callback`, from src/webxr.h lines 193-194. -/
def webxr_set_select_end_callback : CFunDecl :=
  ⟨"webxr_set_select_end_callback", .void,
   [⟨"callback", .typedefRef "webxr_input_callback_func", Option.none⟩,
    ⟨"userData", .ptr .void, Option.none⟩]⟩

/-- `webxr_get_input_sources`, from src/webxr.h lines 203-204. -/
def webxr_get_input_sources : CFunDecl :=
  ⟨"webxr_get_input_sources", .void,
   [⟨"outArray", .ptr (.structRef "WebXRInputSource"), Option.none⟩,
    ⟨"max", .intT, Option.none⟩,
    ⟨"outCount", .ptr .intT, Option.none⟩]⟩

/-- `webxr_get_input_pose`, from src/webxr.h line 213.  The `mode`
parameter carries the C++ default argument `WEBXR_INPUT_POSE_GRIP`. -/
def webxr_get_input_pose : CFunDecl :=
  ⟨"webxr_get_input_pose", .intT,
   [⟨"source", .ptr (.structRef "WebXRInputSource"), Option.none⟩,
    ⟨"outPose", .ptr (.structRef "WebXRRigidTransform"), Option.none⟩,
    ⟨"mode", .enumT "WebXRInputPoseMode", Option.some WebXRInputPoseMode.grip.val⟩]⟩

/-- All twelve extern control functions the header declares, in
declaration order. -/
def controlFunctions : List CFunDecl :=
  [webxr_init,
   webxr_set_session_blur_callback,
   webxr_set_session_focus_callback,
   webxr_is_session_supported,
   webxr_request_session,
   webxr_request_exit,
   webxr_set_projection_params,
   webxr_set_select_callback,
   webxr_set_select_start_callback,
   webxr_set_select_end_callback,
   webxr_get_input_sources,
   webxr_get_input_pose]

/-- Whether a declared function (or callback type) carries an opaque
`void* userData` parameter. -/
def hasUserDataParam (d : CFunDecl) : Bool :=
  d.params.any (fun p => p.paramName = "userData" && p.type == CType.ptr .void)

/-- C++ default-argument semantics for a single parameter: a call that
omits the argument uses the declared default, a call that passes one uses
the passed value. -/
def effectiveArg (p : CParam) (passed : Option Int) : Option Int :=
  match passed with
  | Option.some v => Option.some v
  | Option.none => p.defaultVal

/-- A parameter is valid C (as opposed to C++) only when it declares no
default argument: C has no default-argument construct. -/
def paramValidC (p : CParam) : Bool :=
  p.defaultVal.isNone

/-- A declaration is valid C only when every parameter is. -/
def declValidC (d : CFunDecl) : Bool :=
  d.params.all paramValidC

/-- Whether a parameter type is a single enum tag: an enum-typed scalar,
not a pointer, array or integer bitmask. -/
def isSingleEnumTag : CType → Bool
  | .enumT _ => true
  | _ => false

/-! ## Frame delivery, modelled from the spec (§4.4)

The glue implementing frame delivery is not part of this repository; the
header only declares `webxr_frame_callback_func`.  The value-level frame
contract below is modelled from the specification text. -/

/-- Value-level contents of a `WebXRRigidTransform` as delivered to
callbacks; `float` entries are modelled as rationals. -/
structure RigidTransformVal where
  matrix : Fin 16 → Rat
  position : Fin 3 → Rat
  orientation : Fin 4 → Rat

/-- Value-level contents of a `WebXRView` as delivered to callbacks. -/
structure WebXRViewVal where
  viewPose : RigidTransformVal
  projectionMatrix : Fin 16 → Rat
  viewport : Fin 4 → Int

/-- Modelled from the spec: the rendering arrangement of a frame, per
§4.4 "viewCount (1 for inline/mono, 2 for stereo)". -/
inductive FrameViewKind where
  | mono
  | stereo
deriving DecidableEq, Repr, Fintype

/-- Modelled from the spec: the view count a frame of the given kind
delivers — 1 for inline/mono, 2 for stereo (§4.4). -/
def viewCountFor : FrameViewKind → Nat
  | .mono => 1
  | .stereo => 2

/-- Modelled from the spec: one invocation of the frame callback.  The
signature fixes the storage to two entries (`views[2]`); the first
`viewCount` of them are populated and the rest are undefined, modelled
here as absent (`Option.none`). -/
structure FrameInvocation where
  kind : FrameViewKind
  views : Fin 2 → Option WebXRViewVal
  populated : ∀ i : Fin 2, (views i).isSome = true ↔ i.val < viewCountFor kind

/-- An all-zero rigid transform value, used to exhibit concrete frame
invocations. -/
def zeroRigidTransformVal : RigidTransformVal :=
  ⟨fun _ => 0, fun _ => 0, fun _ => 0⟩

/-- An all-zero view value, used to exhibit concrete frame
invocations. -/
def zeroViewVal : WebXRViewVal :=
  ⟨zeroRigidTransformVal, fun _ => 0, fun _ => 0⟩

/-- A concrete stereo frame invocation with both views populated. -/
def stereoFrameInvocation : FrameInvocation where
  kind := .stereo
  views := fun _ => Option.some zeroViewVal
  populated := by
    intro i
    refine ⟨fun _ => ?_, fun _ => rfl⟩
    exact i.isLt

/-! ## Session lifecycle, modelled from the spec (§3, §5)

The glue driving the session lifecycle is not part of this repository.
The transition system below is modelled from the specification: §3
"Session state (implicit)" (the facade holds at most one active session,
progressing through uninitialized / initialized-idle / session-requested /
session-active / session-blurred / session-ended) and §5's ordering
guarantees (sessionStartCb precedes the first frameCb of a session;
sessionEndCb follows the last frameCb). -/

/-- Modelled from the spec: the facade's implicit session states (§3). -/
inductive SessionState where
  | uninit
  | idle
  | requested
  | active
  | blurred
  | ended
deriving DecidableEq, Repr, Fintype

/-- Modelled from the spec: the lifecycle-relevant occurrences — control
calls into the facade and callbacks out of it (§4.2, §4.3, §4.4). -/
inductive LifecycleEvent where
  | initCall
  | requestCall
  | exitCall
  | sessionStartCb
  | frameCb
  | sessionBlurCb
  | sessionFocusCb
  | sessionEndCb
  | errorCb
deriving DecidableEq, Repr, Fintype

/-- Modelled from the spec: one lifecycle transition.  `init` moves the
facade out of `uninit`; a session request from an idle (or previously
ended) facade awaits the host, which answers with `sessionStartCb` or an
error; frames are delivered only while a session is active (or blurred);
blur and focus toggle visibility; `sessionEndCb` ends the session;
`request_exit` is a no-op transition (§4.3: the end is observed later via
`sessionEndCb`); errors may be reported at any initialized point.
Occurrences not licensed by the spec have no successor state. -/
def stepEvent : SessionState → LifecycleEvent → Option SessionState
  | .uninit, .initCall => Option.some .idle
  | .idle, .requestCall => Option.some .requested
  | .ended, .requestCall => Option.some .requested
  | .requested, .sessionStartCb => Option.some .active
  | .requested, .errorCb => Option.some .idle
  | .active, .frameCb => Option.some .active
  | .blurred, .frameCb => Option.some .blurred
  | .active, .sessionBlurCb => Option.some .blurred
  | .blurred, .sessionFocusCb => Option.some .active
  | .active, .sessionEndCb => Option.some .ended
  | .blurred, .sessionEndCb => Option.some .ended
  | .idle, .errorCb => Option.some .idle
  | .active, .errorCb => Option.some .active
  | .blurred, .errorCb => Option.some .blurred
  | .ended, .errorCb => Option.some .ended
  | .idle, .exitCall => Option.some .idle
  | .requested, .exitCall => Option.some .requested
  | .active, .exitCall => Option.some .active
  | .blurred, .exitCall => Option.some .blurred
  | .ended, .exitCall => Option.some .ended
  | _, _ => Option.none

/-- Run a list of lifecycle occurrences from a state; `Option.none` when
some occurrence is not licensed. -/
def runFrom : SessionState → List LifecycleEvent → Option SessionState
  | s, [] => Option.some s
  | s, e :: es =>
    match stepEvent s e with
    | Option.some t => runFrom t es
    | Option.none => Option.none

/-- Run a trace of lifecycle occurrences from the uninitialized
facade. -/
def runTrace (tr : List LifecycleEvent) : Option SessionState :=
  runFrom .uninit tr

/-! ## Lifecycle lemmas -/

/-- A transition into `active` or `blurred` by anything other than
`sessionStartCb` comes from `active` or `blurred`, and is never
`sessionEndCb`. -/
theorem step_origin : ∀ (s : SessionState) (e : LifecycleEvent) (t : SessionState),
    stepEvent s e = Option.some t → (t = .active ∨ t = .blurred) →
    e ≠ .sessionStartCb →
    ((s = .active ∨ s = .blurred) ∧ e ≠ .sessionEndCb) := by
  decide

/-- A `frameCb` occurrence is licensed only in `active` or `blurred`. -/
theorem frame_step_origin : ∀ (s t : SessionState),
    stepEvent s .frameCb = Option.some t → (s = .active ∨ s = .blurred) := by
  decide

/-- Running an appended trace runs the two parts in sequence. -/
theorem runFrom_append (xs : List LifecycleEvent) :
    ∀ (ys : List LifecycleEvent) (s s' : SessionState),
    runFrom s (xs ++ ys) = Option.some s' →
    ∃ t, runFrom s xs = Option.some t ∧ runFrom t ys = Option.some s' := by
  induction xs with
  | nil =>
    intro ys s s' h
    exact ⟨s, rfl, h⟩
  | cons e es ih =>
    intro ys s s' h
    rw [List.cons_append, runFrom] at h
    cases hst : stepEvent s e with
    | none => rw [hst] at h; exact absurd h (by simp)
    | some t =>
      rw [hst] at h
      obtain ⟨u, h1, h2⟩ := ih ys t s' h
      refine ⟨u, ?_, h2⟩
      rw [runFrom, hst]
      exact h1

/-- If a run ends `active` or `blurred`, either the trace contains a
`sessionStartCb` with no later `sessionEndCb`, or it started `active` or
`blurred` and contains no `sessionEndCb` at all. -/
theorem runFrom_active_bracket (tr : List LifecycleEvent) :
    ∀ (s s' : SessionState), runFrom s tr = Option.some s' →
    (s' = .active ∨ s' = .blurred) →
    (∃ as bs, tr = as ++ .sessionStartCb :: bs ∧ .sessionEndCb ∉ bs) ∨
      ((s = .active ∨ s = .blurred) ∧ .sessionEndCb ∉ tr) := by
  induction tr with
  | nil =>
    intro s s' h hs'
    right
    refine ⟨?_, by simp⟩
    have hss : s = s' := by
      rw [runFrom] at h
      exact Option.some.inj h
    rw [hss]
    exact hs'
  | cons e es ih =>
    intro s s' h hs'
    rw [runFrom] at h
    cases hst : stepEvent s e with
    | none => rw [hst] at h; exact absurd h (by simp)
    | some t =>
      rw [hst] at h
      rcases ih t s' h hs' with ⟨as, bs, heq, hbs⟩ | ⟨ht, hes⟩
      · exact Or.inl ⟨e :: as, bs, by rw [heq, List.cons_append], hbs⟩
      · by_cases he : e = .sessionStartCb
        · subst he
          exact Or.inl ⟨[], es, rfl, hes⟩
        · obtain ⟨hsab, hene⟩ := step_origin s e t hst ht he
          right
          refine ⟨hsab, ?_⟩
          intro hmem
          rcases List.mem_cons.mp hmem with hh | hh
          · exact hene hh.symm
          · exact hes hh

/-! ## Claim theorems -/

/-- C1: every member of every enumeration the header declares has
exactly the numeric value the spec's §4.1 table assigns it:
API_UNSUPPORTED = -2, GL_INCAPABLE = -3, SESSION_UNSUPPORTED = -4;
NONE = -1, LEFT = 0, RIGHT = 1; GAZE = 0, TRACKED_POINTER = 1,
SCREEN = 2; INLINE = 0, IMMERSIVE_VR = 1, IMMERSIVE_AR = 2; LOCAL = 0,
LOCAL_FLOOR = 1, BOUNDED_FLOOR = 2, UNBOUNDED = 3, HIT_TEST = 4;
GRIP = 0, TARGET_RAY = 1. -/
theorem enum_values_match_spec_table :
    WebXRError.val .apiUnsupported = -2 ∧ WebXRError.val .glIncapable = -3
    ∧ WebXRError.val .sessionUnsupported = -4
    ∧ WebXRHandedness.val .none = -1 ∧ WebXRHandedness.val .left = 0
    ∧ WebXRHandedness.val .right = 1
    ∧ WebXRTargetRayMode.val .gaze = 0 ∧ WebXRTargetRayMode.val .trackedPointer = 1
    ∧ WebXRTargetRayMode.val .screen = 2
    ∧ WebXRSessionMode.val .inlineMode = 0 ∧ WebXRSessionMode.val .immersiveVR = 1
    ∧ WebXRSessionMode.val .immersiveAR = 2
    ∧ WebXRSessionFeatures.val .local = 0 ∧ WebXRSessionFeatures.val .localFloor = 1
    ∧ WebXRSessionFeatures.val .boundedFloor = 2 ∧ WebXRSessionFeatures.val .unbounded = 3
    ∧ WebXRSessionFeatures.val .hitTest = 4
    ∧ WebXRInputPoseMode.val .grip = 0 ∧ WebXRInputPoseMode.val .targetRay = 1 := by
  decide

/-- C2: every control function the header declares returns `void`, with
the single exception of `webxr_get_input_pose`, which returns `int` (a
boolean ok-flag); no control function returns an error code. -/
theorem control_functions_void_except_get_input_pose :
    (controlFunctions.filter (fun f => !(f.ret == CType.void))).map CFunDecl.declName
        = ["webxr_get_input_pose"]
    ∧ webxr_get_input_pose.ret = CType.intT
    ∧ controlFunctions.map CFunDecl.declName =
        ["webxr_init", "webxr_set_session_blur_callback",
         "webxr_set_session_focus_callback", "webxr_is_session_supported",
         "webxr_request_session", "webxr_request_exit",
         "webxr_set_projection_params", "webxr_set_select_callback",
         "webxr_set_select_start_callback", "webxr_set_select_end_callback",
         "webxr_get_input_sources", "webxr_get_input_pose"] := by
  refine ⟨rfl, rfl, rfl⟩

/-- C3: `WebXRRigidTransform` consists of exactly the fields
`matrix[16]`, `position[3]`, `orientation[4]` in that order, 23 floats
in all, so its size is 92 bytes under 4-byte float alignment. -/
theorem rigid_transform_23_floats_92_bytes :
    WebXRRigidTransform_layout.map (fun f => (f.fieldName, f.type)) =
      [("matrix", CType.array .floatT 16),
       ("position", CType.array .floatT 3),
       ("orientation", CType.array .floatT 4)]
    ∧ layoutFloatCount (fun _ => 0) WebXRRigidTransform_layout = 23
    ∧ layoutByteSize (fun _ => 0) WebXRRigidTransform_layout = 23 * 4
    ∧ structSizeEnv "WebXRRigidTransform" = 92 := by
  refine ⟨rfl, rfl, rfl, rfl⟩

/-- C4: `WebXRView` consists of exactly a `WebXRRigidTransform` (92
bytes), a 16-float projection matrix (64 bytes) and a 4-int viewport (16
bytes), in that order, totalling 172 bytes under 4-byte float/int
alignment. -/
theorem view_layout_172_bytes :
    WebXRView_layout.map (fun f => (f.fieldName, f.type)) =
      [("viewPose", CType.structRef "WebXRRigidTransform"),
       ("projectionMatrix", CType.array .floatT 16),
       ("viewport", CType.array .intT 4)]
    ∧ (CType.structRef "WebXRRigidTransform").byteSize structSizeEnv = 92
    ∧ (CType.array .floatT 16).byteSize structSizeEnv = 64
    ∧ (CType.array .intT 4).byteSize structSizeEnv = 16
    ∧ layoutByteSize structSizeEnv WebXRView_layout = 172 := by
  refine ⟨rfl, rfl, rfl, rfl, rfl⟩

/-- C5: the frame-callback type fixes the `views` parameter's storage to
exactly two `WebXRView` entries next to a `viewCount` parameter, and
every frame invocation (modelled from the spec) has
1 ≤ viewCount ≤ 2, with exactly the views below `viewCount`
populated. -/
theorem frame_views_fixed_two_viewCount_bounded :
    webxr_frame_callback_func.params.map (fun p => (p.paramName, p.type)) =
      [("userData", CType.ptr .void),
       ("framebuffer_id", CType.intT),
       ("time", CType.intT),
       ("headPose", CType.ptr (.structRef "WebXRRigidTransform")),
       ("views", CType.array (.structRef "WebXRView") 2),
       ("viewCount", CType.intT)]
    ∧ ∀ inv : FrameInvocation,
        (1 ≤ viewCountFor inv.kind ∧ viewCountFor inv.kind ≤ 2)
        ∧ ∀ i : Fin 2, ((inv.views i).isSome = true ↔ i.val < viewCountFor inv.kind) := by
  have hk : ∀ k : FrameViewKind, 1 ≤ viewCountFor k ∧ viewCountFor k ≤ 2 := by decide
  exact ⟨rfl, fun inv => ⟨hk inv.kind, inv.populated⟩⟩

/-- C5 witness: the concrete stereo invocation has 1 ≤ viewCount ≤ 2 and
its first view populated. -/
theorem frame_views_fixed_two_viewCount_bounded_witness :
    (1 ≤ viewCountFor stereoFrameInvocation.kind
      ∧ viewCountFor stereoFrameInvocation.kind ≤ 2)
    ∧ ((stereoFrameInvocation.views 0).isSome = true
      ↔ (0 : Fin 2).val < viewCountFor stereoFrameInvocation.kind) :=
  ⟨(frame_views_fixed_two_viewCount_bounded.2 stereoFrameInvocation).1,
   (frame_views_fixed_two_viewCount_bounded.2 stereoFrameInvocation).2 0⟩

/-- C6 counterexample: the claim that init's `userData` is passed as an
argument to every callback the facade invokes fails at
`webxr_session_supported_callback_func`: that callback type is among the
facade-invoked callback typedefs but carries no `void* userData`
parameter, so no `userData` can reach it. -/
theorem init_userData_not_universal_counterexample :
    webxr_session_supported_callback_func ∈ callbackTypedefs
    ∧ hasUserDataParam webxr_session_supported_callback_func = false
    ∧ ¬ (∀ cb ∈ callbackTypedefs, hasUserDataParam cb = true) := by
  decide

/-- C6 (amended): `webxr_init` takes exactly the mandatory callback
quartet (frame, session-start, session-end, error) plus one opaque
`userData` pointer, and each of those four callback types carries a
`void* userData` parameter through which init's pointer is passed; the
session-supported callback, by contrast, carries no `userData`
parameter. -/
theorem init_quartet_userData_amended :
    webxr_init.params.map (fun p => (p.paramName, p.type)) =
      [("frameCallback", CType.typedefRef "webxr_frame_callback_func"),
       ("sessionStartCallback", CType.typedefRef "webxr_session_callback_func"),
       ("sessionEndCallback", CType.typedefRef "webxr_session_callback_func"),
       ("errorCallback", CType.typedefRef "webxr_error_callback_func"),
       ("userData", CType.ptr .void)]
    ∧ webxr_init.ret = CType.void
    ∧ hasUserDataParam webxr_frame_callback_func = true
    ∧ hasUserDataParam webxr_session_callback_func = true
    ∧ hasUserDataParam webxr_error_callback_func = true
    ∧ hasUserDataParam webxr_session_supported_callback_func = false := by
  refine ⟨rfl, rfl, rfl, rfl, rfl, rfl⟩

/-- C7: `webxr_request_session` takes exactly one required-feature and
one optional-feature argument, each a single `WebXRSessionFeatures`
enum tag (not a bitmask, pointer or list), in the order mode,
requiredFeatures, optionalFeatures. -/
theorem request_session_single_feature_tags :
    webxr_request_session.params.map (fun p => (p.paramName, p.type)) =
      [("mode", CType.enumT "WebXRSessionMode"),
       ("requiredFeatures", CType.enumT "WebXRSessionFeatures"),
       ("optionalFeatures", CType.enumT "WebXRSessionFeatures")]
    ∧ webxr_request_session.params.all (fun p => isSingleEnumTag p.type) = true := by
  refine ⟨rfl, rfl⟩

/-- C8: in every accepted lifecycle trace (modelled from the spec),
every frame-callback occurrence is preceded by a session-start callback
with no session-end callback in between, and no frame-callback
occurrence lies between a session-end callback and the next
session-start; the frame callback never fires outside the interval
bracketed by sessionStartCb and sessionEndCb. -/
theorem frame_bracketed_by_session_start_end (tr : List LifecycleEvent)
    (s' : SessionState) (h : runTrace tr = Option.some s') :
    (∀ xs ys, tr = xs ++ LifecycleEvent.frameCb :: ys →
      ∃ as bs, xs = as ++ LifecycleEvent.sessionStartCb :: bs
        ∧ LifecycleEvent.sessionEndCb ∉ bs)
    ∧ (∀ cs ds es,
        tr = cs ++ LifecycleEvent.sessionEndCb :: (ds ++ LifecycleEvent.frameCb :: es) →
      LifecycleEvent.sessionStartCb ∈ ds) := by
  have key : ∀ xs ys, tr = xs ++ LifecycleEvent.frameCb :: ys →
      ∃ as bs, xs = as ++ LifecycleEvent.sessionStartCb :: bs
        ∧ LifecycleEvent.sessionEndCb ∉ bs := by
    intro xs ys heq
    subst heq
    obtain ⟨t, h1, h2⟩ := runFrom_append xs (LifecycleEvent.frameCb :: ys) .uninit s' h
    rw [runFrom] at h2
    cases hst : stepEvent t .frameCb with
    | none => rw [hst] at h2; exact absurd h2 (by simp)
    | some u =>
      have ht := frame_step_origin t u hst
      rcases runFrom_active_bracket xs .uninit t h1 ht with hbr | ⟨hun, _⟩
      · exact hbr
      · rcases hun with hu | hu <;> exact absurd hu (by decide)
  refine ⟨key, ?_⟩
  intro cs ds es heq
  obtain ⟨as, bs, hsplit, hbs⟩ :=
    key (cs ++ LifecycleEvent.sessionEndCb :: ds) es (by rw [heq]; simp)
  rcases List.append_eq_append_iff.mp hsplit with ⟨a', _, hb⟩ | ⟨c', _, hd⟩
  · cases a' with
    | nil =>
      injection hb with hb1 _
      exact absurd hb1 (by decide)
    | cons x a'' =>
      rw [List.cons_append] at hb
      injection hb with _ hb2
      rw [hb2]
      exact List.mem_append_right _ (List.mem_cons_self _ _)
  · cases c' with
    | nil =>
      injection hd with hd1 _
      exact absurd hd1 (by decide)
    | cons x c'' =>
      rw [List.cons_append] at hd
      injection hd with _ hd2
      exact absurd (hd2 ▸ List.mem_append_right _ (List.mem_cons_self _ _)) hbs

/-- C8 witness: on the concrete trace init, request, session-start,
frame, session-end, the frame occurrence is bracketed by the
session-start. -/
theorem frame_bracketed_by_session_start_end_witness :
    runTrace [LifecycleEvent.initCall, .requestCall, .sessionStartCb, .frameCb,
      .sessionEndCb] = Option.some SessionState.ended
    ∧ ∃ as bs,
        ([LifecycleEvent.initCall, .requestCall, .sessionStartCb] : List LifecycleEvent)
          = as ++ LifecycleEvent.sessionStartCb :: bs
        ∧ LifecycleEvent.sessionEndCb ∉ bs :=
  ⟨rfl,
   (frame_bracketed_by_session_start_end
      [.initCall, .requestCall, .sessionStartCb, .frameCb, .sessionEndCb]
      SessionState.ended rfl).1
     [.initCall, .requestCall, .sessionStartCb] [.sessionEndCb] rfl⟩

/-- C9: the session-support probe callback type receives only the
requested mode and the supported boolean and carries no `userData`
parameter, unlike every other callback type in the header, so no caller
context pointer reaches the handler passed to
`webxr_is_session_supported`. -/
theorem session_supported_callback_lacks_userData :
    hasUserDataParam webxr_session_supported_callback_func = false
    ∧ webxr_session_supported_callback_func.params.map
        (fun p => (p.paramName, p.type)) =
        [("mode", CType.intT), ("supported", CType.intT)]
    ∧ hasUserDataParam webxr_error_callback_func = true
    ∧ hasUserDataParam webxr_frame_callback_func = true
    ∧ hasUserDataParam webxr_session_callback_func = true
    ∧ hasUserDataParam webxr_input_callback_func = true
    ∧ webxr_is_session_supported.params.map (fun p => (p.paramName, p.type)) =
        [("mode", CType.enumT "WebXRSessionMode"),
         ("supportedCallback",
          CType.typedefRef "webxr_session_supported_callback_func")] := by
  refine ⟨rfl, rfl, rfl, rfl, rfl, rfl, rfl⟩

/-- C10: `webxr_get_input_pose` declares the default argument
`mode = WEBXR_INPUT_POSE_GRIP` on its third parameter, so a call that
omits the mode argument queries the grip-space pose; a default argument
is a C++-only construct, so the declaration is not valid C and the
header as written requires a C++ compiler. -/
theorem get_input_pose_default_grip_cpp_only :
    webxr_get_input_pose.params.map CParam.defaultVal =
      [Option.none, Option.none, Option.some WebXRInputPoseMode.grip.val]
    ∧ (∃ p, webxr_get_input_pose.params[2]? = Option.some p
        ∧ p.paramName = "mode"
        ∧ effectiveArg p Option.none = Option.some WebXRInputPoseMode.grip.val)
    ∧ declValidC webxr_get_input_pose = false
    ∧ controlFunctions.all declValidC = false := by
  exact ⟨rfl, ⟨_, rfl, rfl, rfl⟩, rfl, rfl⟩

end WebXR
